import Mathlib

/-!
Verification of the glucose-dashboard Firebase Functions back end
(the functions/src/index.ts file of the repository, provided as
src/unnamed/part_000).

The embedding is shallow: instants are epoch milliseconds as `Int`
(matching JavaScript `Date.now()` / `Date.getTime()`), the Firestore
collections touched by the claims are modelled as explicit state
(the rate-limit ledger as a list of call timestamps, the glucose-reading
collection as an association list keyed by document id), and the
asynchronous effects (Firestore transactions, vendor HTTP calls) are
modelled by passing their outcomes in as explicit parameters.
JavaScript truthiness on the fields the code tests with `!x` is modelled
explicitly (`none`, the empty string and the number 0 are falsy).
-/

namespace GlucoseDashboard

/-! ## Configuration constants (DEXCOM_API_CONFIG in the source) -/

/-- `TOKEN_EXPIRY_BUFFER_MS: 30 * 60 * 1000` — 30 minutes before expiry. -/
def TOKEN_EXPIRY_BUFFER_MS : Int := 30 * 60 * 1000

/-- `RATE_LIMIT_MAX_CALLS: 60000` — 60,000 calls per hour. -/
def RATE_LIMIT_MAX_CALLS : Nat := 60000

/-- `RATE_LIMIT_WINDOW_MS: 60 * 60 * 1000` — 1 hour. -/
def RATE_LIMIT_WINDOW_MS : Int := 60 * 60 * 1000

/-- Epoch milliseconds of `new Date('2020-01-01')`, the floor date in
`dexcomFetchGlucoseData` (`minAllowedDate`). -/
def MIN_ALLOWED_DATE_MS : Int := 1577836800000

/-- `maxRangeMs = 365 * 24 * 60 * 60 * 1000` — 1 year maximum range. -/
def MAX_RANGE_MS : Int := 365 * 24 * 60 * 60 * 1000

/-- `12 * 60 * 60 * 1000` — the 12-hour span used both for the default
fetch window and for the sandbox remap. -/
def TWELVE_HOURS_MS : Int := 12 * 60 * 60 * 1000

/-! ## Rate limiter (`checkRateLimit`, source lines 185–228)

The ledger document `rateLimits/global` holds a `calls` array of epoch-ms
timestamps; we model it as `List Int`.  The Firestore transaction either
runs to completion or fails as a whole; the parameter `txOk` says which. -/

structure RateLimitResult where
  allowed : Bool
  remaining : Nat
  resetTime : Int
deriving DecidableEq, Repr

/-- The body of the Firestore transaction in `checkRateLimit`,
parametrised by the ceiling and window as the spec's §4.1 presents the
algorithm (in the source they are the two configuration constants).
Returns the result reported to the caller and the ledger state after the
transaction commits. -/
def rateLimitTransaction (ceiling : Nat) (windowMs : Int) (now : Int)
    (calls : List Int) : RateLimitResult × List Int :=
  let windowStart := now - windowMs
  let recentCalls := calls.filter (fun t => windowStart < t)
  let remaining : Int := (ceiling : Int) - recentCalls.length
  let allowed := 0 < remaining
  if allowed then
    (⟨true, (max 0 remaining).toNat, now + windowMs⟩, recentCalls ++ [now])
  else
    (⟨false, (max 0 remaining).toNat, now + windowMs⟩, calls)

/-- `checkRateLimit`: run the transaction with the configured constants;
if the transaction itself throws (`txOk = false`), fail open with the
full ceiling and leave the ledger untouched. -/
def checkRateLimit (txOk : Bool) (now : Int) (calls : List Int) :
    RateLimitResult × List Int :=
  if txOk then
    rateLimitTransaction RATE_LIMIT_MAX_CALLS RATE_LIMIT_WINDOW_MS now calls
  else
    (⟨true, RATE_LIMIT_MAX_CALLS, now + RATE_LIMIT_WINDOW_MS⟩, calls)

/-- Run a sequence of rate-limit checks (all with a working transaction),
threading the ledger, and report whether each call was admitted. -/
def runRateCalls (ceiling : Nat) (windowMs : Int) :
    List Int → List Int → List Bool × List Int
  | [], calls => ([], calls)
  | t :: ts, calls =>
    let step := rateLimitTransaction ceiling windowMs t calls
    let rest := runRateCalls ceiling windowMs ts step.2
    (step.1.allowed :: rest.1, rest.2)

/-! ## Glucose reading storage (`storeGlucoseReadings`, source lines 247–286)

A reading's `systemTime`/`displayTime` arrive as ISO date strings; the
code immediately converts them with `new Date(s).getTime()` /
`Timestamp.fromDate(new Date(s))`, so we embed them directly as the
epoch-millisecond instants they denote.  The `glucoseReadings` collection
is an association list from document id to stored record; `batch.set`
with `{merge: true}` writes every field of the record, so on an existing
document it amounts to overwriting the record. -/

structure DexcomGlucoseReading where
  systemTime : Int
  displayTime : Int
  value : Int
  trend : String
  trendRate : Option Int
deriving DecidableEq, Repr

structure StoredGlucoseReading where
  userId : String
  systemTime : Int
  displayTime : Int
  value : Int
  unit : String
  trend : String
  trendRate : Option Int
deriving DecidableEq, Repr

/-- ``const docId = `${userId}_${new Date(reading.systemTime).getTime()}` `` -/
def docId (userId : String) (systemTimeMs : Int) : String :=
  userId ++ "_" ++ toString systemTimeMs

/-- The `glucoseReadings` collection: document id ↦ stored record. -/
abbrev GlucoseStore := List (String × StoredGlucoseReading)

/-- `doc(docId).set(record, {merge: true})`: replace the record at the
key if present, otherwise append a fresh document. -/
def GlucoseStore.set (s : GlucoseStore) (k : String)
    (r : StoredGlucoseReading) : GlucoseStore :=
  if s.any (fun p => p.1 = k) then
    s.map (fun p => if p.1 = k then (k, r) else p)
  else
    s ++ [(k, r)]

/-- Firestore `get` on the collection by document id. -/
def GlucoseStore.lookup (s : GlucoseStore) (k : String) :
    Option StoredGlucoseReading :=
  (s.find? (fun p => p.1 = k)).map (·.2)

/-- The `StoredGlucoseReading` the loop body constructs (line 261–270). -/
def mkStoredReading (userId : String) (r : DexcomGlucoseReading) :
    StoredGlucoseReading :=
  ⟨userId, r.systemTime, r.displayTime, r.value, "mg/dL", r.trend, r.trendRate⟩

/-- `storeGlucoseReadings(userId, readings)`: one batched write, one
`set … {merge:true}` per reading at its derived document id.  An empty
list returns early, leaving the store unchanged (which the fold also
does). -/
def storeGlucoseReadings (userId : String)
    (readings : List DexcomGlucoseReading) (s : GlucoseStore) : GlucoseStore :=
  readings.foldl
    (fun acc r => acc.set (docId userId r.systemTime) (mkStoredReading userId r))
    s

/-- Run a whole sequence of `storeGlucoseReadings` calls (each a pair of
user id and reading list) against the store. -/
def runStoreCalls (callsList : List (String × List DexcomGlucoseReading))
    (s : GlucoseStore) : GlucoseStore :=
  callsList.foldl (fun acc c => storeGlucoseReadings c.1 c.2 acc) s

/-! ## Sandbox date adjustment (`adjustDatesForSandbox`, lines 347–397) -/

structure RangeEndpoint where
  systemTime : Int
deriving DecidableEq, Repr

/-- The `egvs` part of the `DexcomDataRange` response (the only part the
function reads); either endpoint may be absent. -/
structure DexcomDataRange where
  egvsStart : Option RangeEndpoint
  egvsEnd : Option RangeEndpoint
deriving DecidableEq, Repr

structure AdjustResult where
  startDate : Int
  endDate : Int
  adjusted : Bool
deriving DecidableEq, Repr

/-- `adjustDatesForSandbox(requestedStartDate, requestedEndDate,
dataRange, useSandbox)`. -/
def adjustDatesForSandbox (requestedStartDate requestedEndDate : Int)
    (dataRange : Option DexcomDataRange) (useSandbox : Bool) : AdjustResult :=
  match useSandbox, dataRange with
  | true, some ⟨some s, some e⟩ =>
    let availableStart := s.systemTime
    let availableEnd := e.systemTime
    if availableEnd < requestedStartDate ∨ requestedEndDate < availableStart then
      let duration := min TWELVE_HOURS_MS (availableEnd - availableStart)
      ⟨availableEnd - duration, availableEnd, true⟩
    else
      let adjustedStart := max requestedStartDate availableStart
      let adjustedEnd := min requestedEndDate availableEnd
      ⟨adjustedStart, adjustedEnd,
        adjustedStart ≠ requestedStartDate ∨ adjustedEnd ≠ requestedEndDate⟩
  | _, _ => ⟨requestedStartDate, requestedEndDate, false⟩

/-! ## State token codec (`generateSecureState` / `validateState`,
source lines 106–140)

A state token is a base64-encoded JSON object.  That codec is injective
and total on the objects the code produces, so we embed a token as
either the decoded JSON object (with each of the three fields possibly
absent, since arbitrary callers may send arbitrary JSON) or `malformed`
for any string on which `JSON.parse(Buffer.from(s,'base64')…)` throws.
JavaScript truthiness on the `!stateData.x` tests is modelled by
`jsFalsyStr` / `jsFalsyInt`: an absent field, the empty string and the
number 0 are falsy. -/

structure StateData where
  userId : Option String
  timestamp : Option Int
  nonce : Option String
deriving DecidableEq, Repr

inductive StateToken where
  | malformed
  | parsed (data : StateData)
deriving DecidableEq, Repr

def jsFalsyStr : Option String → Bool
  | none => true
  | some s => s == ""

def jsFalsyInt : Option Int → Bool
  | none => true
  | some n => n == 0

/-- `generateSecureState(userId)` builds
`{userId, timestamp: Date.now(), nonce}` and base64-encodes its JSON;
the clock reading and the random nonce are passed in explicitly. -/
def generateSecureState (userId : String) (now : Int) (nonce : String) :
    StateToken :=
  .parsed ⟨some userId, some now, some nonce⟩

structure ValidationResult where
  valid : Bool
  reason : Option String
deriving DecidableEq, Repr

/-- `validateState(state, expectedUserId)`; `now` is the `Date.now()`
read inside the function. -/
def validateState (state : StateToken) (expectedUserId : String)
    (now : Int) : ValidationResult :=
  match state with
  | .malformed => ⟨false, some "Invalid state format"⟩
  | .parsed d =>
    if jsFalsyStr d.userId || jsFalsyInt d.timestamp || jsFalsyStr d.nonce then
      ⟨false, some "Missing required state fields"⟩
    else if d.userId ≠ some expectedUserId then
      ⟨false, some "User ID mismatch"⟩
    else if 60 * 60 * 1000 < now - d.timestamp.getD 0 then
      ⟨false, some "State parameter expired"⟩
    else
      ⟨true, none⟩

/-! ## Token refresh decision (lines 768–773 and 1102–1107)

Both `dexcomFetchGlucoseData` and `scheduledGlucoseDataPull` guard the
refresh with the same condition on the stored `expiresAt`. -/

structure DexcomTokens where
  userId : String
  accessToken : String
  refreshToken : String
  expiresAt : Int
  refreshTokenCreatedAt : Int
  lastRefresh : Option Int
deriving DecidableEq, Repr

/-- `now >= tokens.expiresAt ||
now + DEXCOM_API_CONFIG.TOKEN_EXPIRY_BUFFER_MS >= tokens.expiresAt`. -/
def shouldRefreshToken (now expiresAt : Int) : Bool :=
  decide (expiresAt ≤ now) || decide (expiresAt ≤ now + TOKEN_EXPIRY_BUFFER_MS)

/-- The refresh step as both call sites run it: if the stored token is
expired or expiring soon, the result of `refreshAccessToken` (which may
throw, modelled as `Except`) replaces the tokens; otherwise the stored
record is used unchanged. -/
def ensureFreshTokens (now : Int) (tokens : DexcomTokens)
    (refreshResult : Except Unit DexcomTokens) : Except Unit DexcomTokens :=
  if shouldRefreshToken now tokens.expiresAt then refreshResult
  else .ok tokens

/-! ## OAuth callback (`dexcomOAuthCallback`, source lines 523–649)

The handler's only caller-observable outcome is the redirect it issues;
HTTP effects (the code-for-tokens exchange, the Firestore save) are
passed in as outcome parameters.  The `state` query parameter is
modelled as `Option StateToken` (`none` = absent or empty, hence falsy);
note the handler validates the state against the `userId` decoded from
the state itself. -/

inductive CallbackRedirect where
  | errorRedirect (code : String)
  | successRedirect
deriving DecidableEq, Repr

def dexcomOAuthCallback (configOk : Bool) (error : Option String)
    (code : Option String) (state : Option StateToken) (now : Int)
    (exchangeOk : Bool) (saveOk : Bool) : CallbackRedirect :=
  if ¬ configOk then .errorRedirect "configuration_error"
  else if ¬ jsFalsyStr error then .errorRedirect (error.getD "")
  else if jsFalsyStr code || state.isNone then .errorRedirect "missing_parameters"
  else
    match state with
    | none | some .malformed => .errorRedirect "invalid_state"
    | some (.parsed d) =>
      if jsFalsyStr d.userId then .errorRedirect "invalid_state"
      else if ¬ (validateState (.parsed d) (d.userId.getD "") now).valid then
        .errorRedirect "invalid_state"
      else if ¬ exchangeOk then .errorRedirect "token_exchange_failed"
      else
        -- `saveUserTokens` runs in a try/catch whose catch only logs;
        -- the redirect below is issued whatever `saveOk` is.
        .successRedirect

/-! ## `dexcomFetchGlucoseData` validation pipeline (lines 749–898)

We model the authenticated path of the callable up to (and including)
its date validation, the part the claims address.  A date parameter is
`Option (Option Int)`: `none` = not supplied (falsy), `some none` =
supplied but `new Date(s)` is `NaN`, `some (some t)` = supplied and
parses to epoch-ms `t`. -/

inductive FetchOutcome where
  /-- `not-found`: "No Dexcom tokens found. Please connect to Dexcom first." -/
  | notConnected
  /-- `resource-exhausted`: "API rate limit exceeded." -/
  | rateLimited
  /-- `refreshAccessToken` threw. -/
  | refreshFailed
  /-- `invalid-argument`: "Invalid date format provided". -/
  | invalidDateFormat
  /-- `invalid-argument`: "Start date cannot be before 2020". -/
  | startBefore2020
  /-- `invalid-argument`: "End date cannot be before 2020". -/
  | endBefore2020
  /-- `invalid-argument`: "Start date must be before end date". -/
  | startNotBeforeEnd
  /-- `invalid-argument`: "Date range cannot exceed 1 year". -/
  | rangeTooLarge
  /-- All validations passed: proceed to the vendor fetch with this
  resolved window and these (possibly refreshed) tokens. -/
  | proceed (startDate endDate : Int) (tokens : DexcomTokens)
deriving DecidableEq, Repr

/-- Lines 819–832: `if (startDate && endDate)` use the provided pair,
else default to the last 12 hours ending now. -/
def resolveFetchDates (now : Int) (startDate endDate : Option (Option Int)) :
    Option Int × Option Int :=
  match startDate, endDate with
  | some s, some e => (s, e)
  | _, _ => (some (now - TWELVE_HOURS_MS), some now)

/-- The fail-fast validation chain of `dexcomFetchGlucoseData`, in
source order: missing tokens → rate limit → token refresh → date parse
(`isNaN`) → 2020 floor on each bound → ordering → 365-day span. -/
def dexcomFetchGlucoseDataValidate (tokens : Option DexcomTokens)
    (rateAllowed : Bool) (now : Int)
    (refreshResult : Except Unit DexcomTokens)
    (startDate endDate : Option (Option Int)) : FetchOutcome :=
  match tokens with
  | none => .notConnected
  | some tks =>
    if ¬ rateAllowed then .rateLimited
    else
      match ensureFreshTokens now tks refreshResult with
      | .error _ => .refreshFailed
      | .ok freshTokens =>
        match resolveFetchDates now startDate endDate with
        | (some s, some e) =>
          if s < MIN_ALLOWED_DATE_MS then .startBefore2020
          else if e < MIN_ALLOWED_DATE_MS then .endBefore2020
          else if e ≤ s then .startNotBeforeEnd
          else if MAX_RANGE_MS < e - s then .rangeTooLarge
          else .proceed s e freshTokens
        | _ => .invalidDateFormat

/-! ## Scheduled sweep (`scheduledGlucoseDataPull`, lines 1075–1164)

For each credential document the sweep runs a per-user pipeline inside
its own try/catch: rate-limit check (skip on denial), conditional token
refresh (a throw is caught), vendor fetch (a rejected promise is caught;
a non-ok response is only logged), and — when readings arrived — one
atomic `storeGlucoseReadings` batch (a throw is caught, the batch not
committed).  The vendor fetch outcome is `Except Unit (Option (List …))`:
`error` = the promise rejected, `ok none` = HTTP non-ok, `ok (some rs)` =
readings `rs`.  The per-user jobs only interleave on the shared store and
each user writes its own batch atomically, so the sweep is modelled as a
sequential fold over the user list. -/

structure SweepUserInput where
  tokens : DexcomTokens
  rateAllowed : Bool
  refreshResult : Except Unit DexcomTokens
  fetchResult : Except Unit (Option (List DexcomGlucoseReading))
  storeOk : Bool
deriving Repr

/-- One user's slice of the sweep; every failure leaves the store as it
was, the catch block only logs. -/
def sweepUser (now : Int) (u : SweepUserInput) (store : GlucoseStore) :
    GlucoseStore :=
  if ¬ u.rateAllowed then store
  else
    match ensureFreshTokens now u.tokens u.refreshResult with
    | .error _ => store
    | .ok _ =>
      match u.fetchResult with
      | .error _ => store
      | .ok none => store
      | .ok (some glucoseData) =>
        if glucoseData.length > 0 then
          if u.storeOk then storeGlucoseReadings u.tokens.userId glucoseData store
          else store
        else store

/-- The whole sweep: fold the per-user pipeline over every credential
document; the function returns nothing to its (time-trigger) caller. -/
def scheduledGlucoseDataPull (now : Int) (users : List SweepUserInput)
    (store : GlucoseStore) : GlucoseStore × Unit :=
  (users.foldl (fun s u => sweepUser now u s) store, ())

/-! ## Concrete inputs used by the sweep-isolation example -/

def exampleTokens (uid : String) : DexcomTokens :=
  ⟨uid, "access", "refresh", 99999999999, 0, none⟩

def exUser1 : SweepUserInput :=
  ⟨exampleTokens "u1", true, .ok (exampleTokens "u1"),
    .ok (some [⟨50, 60, 100, "up", none⟩]), true⟩

/-- The middle user of the spec's sweep-isolation scenario: its vendor
fetch throws. -/
def exUser2 : SweepUserInput :=
  ⟨exampleTokens "u2", true, .ok (exampleTokens "u2"), .error (), true⟩

def exUser3 : SweepUserInput :=
  ⟨exampleTokens "u3", true, .ok (exampleTokens "u3"),
    .ok (some [⟨80, 90, 110, "down", none⟩]), true⟩

def exampleSweepUsers : List SweepUserInput := [exUser1, exUser2, exUser3]

/-! ## Helper lemmas -/

/-- Both invariants of the reading store that `storeGlucoseReadings`
maintains: every document sits at the id derived from its own
`(userId, systemTime)`, and document ids are pairwise distinct. -/
def StoreInv (s : GlucoseStore) : Prop :=
  (∀ p ∈ s, p.1 = docId p.2.userId p.2.systemTime) ∧ (s.map Prod.fst).Nodup

lemma storeInv_nil : StoreInv [] := ⟨by simp, by simp⟩

lemma storeInv_set {s : GlucoseStore} {k : String} {r : StoredGlucoseReading}
    (h : StoreInv s) (hk : k = docId r.userId r.systemTime) :
    StoreInv (s.set k r) := by
  obtain ⟨hw, hn⟩ := h
  unfold GlucoseStore.set
  by_cases hp : s.any (fun p => p.1 = k) = true
  · rw [if_pos hp]
    refine ⟨?_, ?_⟩
    · intro p hpmem
      obtain ⟨q, hq, hqe⟩ := List.mem_map.mp hpmem
      by_cases hqk : q.1 = k
      · rw [if_pos hqk] at hqe
        rw [← hqe]
        exact hk
      · rw [if_neg hqk] at hqe
        rw [← hqe]
        exact hw q hq
    · rw [List.map_map]
      have : s.map (Prod.fst ∘ fun p => if p.1 = k then (k, r) else p) =
          s.map Prod.fst := by
        apply List.map_congr_left
        intro q _
        by_cases hqk : q.1 = k
        · simp [hqk]
        · simp [hqk]
      rw [this]
      exact hn
  · rw [if_neg hp]
    refine ⟨?_, ?_⟩
    · intro p hpmem
      rcases List.mem_append.mp hpmem with h1 | h2
      · exact hw p h1
      · have : p = (k, r) := by simpa using h2
        rw [this]
        exact hk
    · rw [List.map_append]
      refine List.Nodup.append hn (by simp) ?_
      intro x hx hx'
      have hxk : x = k := by simpa using hx'
      obtain ⟨q, hq, hqe⟩ := List.mem_map.mp hx
      exact hp (List.any_eq_true.mpr ⟨q, hq, by simp [hqe, hxk]⟩)

lemma storeInv_storeGlucoseReadings {s : GlucoseStore} (u : String)
    (rs : List DexcomGlucoseReading) (h : StoreInv s) :
    StoreInv (storeGlucoseReadings u rs s) := by
  induction rs generalizing s with
  | nil => exact h
  | cons r rs ih =>
    exact ih (storeInv_set h rfl)

lemma storeInv_runStoreCalls {s : GlucoseStore}
    (callsList : List (String × List DexcomGlucoseReading)) (h : StoreInv s) :
    StoreInv (runStoreCalls callsList s) := by
  induction callsList generalizing s with
  | nil => exact h
  | cons c cs ih =>
    exact ih (storeInv_storeGlucoseReadings c.1 c.2 h)

lemma nodupKeys_value_eq {s : GlucoseStore} (hn : (s.map Prod.fst).Nodup)
    {k : String} {r₁ r₂ : StoredGlucoseReading}
    (h₁ : (k, r₁) ∈ s) (h₂ : (k, r₂) ∈ s) : r₁ = r₂ := by
  induction s with
  | nil => cases h₁
  | cons a tl ih =>
    rw [List.map_cons, List.nodup_cons] at hn
    rcases List.mem_cons.mp h₁ with ha₁ | ht₁ <;>
      rcases List.mem_cons.mp h₂ with ha₂ | ht₂
    · rw [← ha₁] at ha₂
      exact (Prod.mk.injEq _ _ _ _ ▸ ha₂.symm).2
    · exact absurd (List.mem_map.mpr ⟨(k, r₂), ht₂, by rw [← ha₁]⟩) hn.1
    · exact absurd (List.mem_map.mpr ⟨(k, r₁), ht₁, by rw [← ha₂]⟩) hn.1
    · exact ih hn.2 ht₁ ht₂

lemma storeInv_atMostOne {s : GlucoseStore} (h : StoreInv s)
    {k₁ k₂ : String} {r₁ r₂ : StoredGlucoseReading}
    (h₁ : (k₁, r₁) ∈ s) (h₂ : (k₂, r₂) ∈ s)
    (hu : r₁.userId = r₂.userId) (ht : r₁.systemTime = r₂.systemTime) :
    k₁ = k₂ ∧ r₁ = r₂ := by
  have e₁ : k₁ = docId r₁.userId r₁.systemTime := h.1 _ h₁
  have e₂ : k₂ = docId r₂.userId r₂.systemTime := h.1 _ h₂
  have hk : k₁ = k₂ := by
    rw [e₁, e₂, hu, ht]
  refine ⟨hk, ?_⟩
  rw [hk] at h₁
  exact nodupKeys_value_eq h.2 h₁ h₂

lemma validateState_generate (u v : String) (t : Int) (n : String) (now : Int)
    (hu : u ≠ "") (ht : t ≠ 0) (hn : n ≠ "") :
    validateState (generateSecureState u t n) v now =
      if u = v then
        (if 60 * 60 * 1000 < now - t then
          ⟨false, some "State parameter expired"⟩
        else ⟨true, none⟩)
      else ⟨false, some "User ID mismatch"⟩ := by
  simp only [validateState, generateSecureState, jsFalsyStr, jsFalsyInt]
  rw [if_neg]
  · by_cases huv : u = v
    · rw [if_pos huv, if_neg (by simp [huv])]
      simp
    · rw [if_neg huv, if_pos (by simp [huv])]
  · simp [hu, ht, hn]

lemma validateState_generate_valid (u : String) (t : Int) (n : String)
    (now : Int) (hu : u ≠ "") (ht : t ≠ 0) (hn : n ≠ "")
    (hage : now - t ≤ 60 * 60 * 1000) :
    validateState (generateSecureState u t n) u now = ⟨true, none⟩ := by
  rw [validateState_generate u u t n now hu ht hn, if_pos rfl,
    if_neg (not_lt.mpr hage)]

lemma sweepUser_fetchThrow (now : Int) (u : SweepUserInput)
    (store : GlucoseStore) (h : u.fetchResult = .error ()) :
    sweepUser now u store = store := by
  unfold sweepUser
  by_cases hr : u.rateAllowed = true
  · rw [if_neg (by simp [hr])]
    cases he : ensureFreshTokens now u.tokens u.refreshResult with
    | error e => rfl
    | ok tks => rw [h]
  · rw [if_pos (by simp [Bool.not_eq_true] at hr ⊢; exact hr)]

/-- Evaluation of the fetch-validation chain once the tokens are
present, the rate limiter admitted the call, the refresh step succeeded
and the window resolved to `(some s, some e)`. -/
lemma fetchValidate_eval (tks tks' : DexcomTokens) (now : Int)
    (refreshResult : Except Unit DexcomTokens)
    (startDate endDate : Option (Option Int)) (s e : Int)
    (h : ensureFreshTokens now tks refreshResult = .ok tks')
    (hres : resolveFetchDates now startDate endDate = (some s, some e)) :
    dexcomFetchGlucoseDataValidate (some tks) true now refreshResult
        startDate endDate =
      (if s < MIN_ALLOWED_DATE_MS then .startBefore2020
       else if e < MIN_ALLOWED_DATE_MS then .endBefore2020
       else if e ≤ s then .startNotBeforeEnd
       else if MAX_RANGE_MS < e - s then .rangeTooLarge
       else .proceed s e tks') := by
  simp only [dexcomFetchGlucoseDataValidate]
  rw [if_neg (by simp), h, hres]

/-! ## Claim theorems -/

/-- C1: `checkRateLimit` admits a call iff the number of recorded call
timestamps strictly newer than `now − window` is below the ceiling; when
admitted the persisted ledger becomes the fresh entries with `now`
appended, and when denied the ledger is unchanged.  With ceiling 3 and a
1000 ms window, calls at t = 0, 100, 200 are admitted, a 4th at t = 300
is denied, and a 5th at t = 1100 is admitted (leaving ledger
`[200, 1100]`). -/
theorem checkRateLimit_correct :
    (∀ (now : Int) (calls : List Int),
      ((checkRateLimit true now calls).1.allowed = true ↔
        (calls.filter (fun t => now - RATE_LIMIT_WINDOW_MS < t)).length <
          RATE_LIMIT_MAX_CALLS) ∧
      ((checkRateLimit true now calls).1.allowed = true →
        (checkRateLimit true now calls).2 =
          calls.filter (fun t => now - RATE_LIMIT_WINDOW_MS < t) ++ [now]) ∧
      ((checkRateLimit true now calls).1.allowed = false →
        (checkRateLimit true now calls).2 = calls)) ∧
    (runRateCalls 3 1000 [0, 100, 200, 300, 1100] []).1 =
      [true, true, true, false, true] ∧
    (runRateCalls 3 1000 [0, 100, 200, 300, 1100] []).2 = [200, 1100] := by
  refine ⟨?_, by decide, by decide⟩
  intro now calls
  simp only [checkRateLimit, rateLimitTransaction, if_true]
  by_cases h : (0 : Int) < (RATE_LIMIT_MAX_CALLS : Int) -
      ((calls.filter (fun t => now - RATE_LIMIT_WINDOW_MS < t)).length : Int)
  · rw [if_pos h]
    exact ⟨iff_of_true rfl (by omega), fun _ => rfl, fun hc => Bool.noConfusion hc⟩
  · rw [if_neg h]
    exact ⟨iff_of_false (by simp) (by omega), fun hc => Bool.noConfusion hc,
      fun _ => rfl⟩

/-- C1 witness: instantiate the general part at a concrete ledger. -/
theorem checkRateLimit_correct_witness :
    (checkRateLimit true 1100 [0, 100, 200]).2 = [0, 100, 200, 1100] :=
  ((checkRateLimit_correct.1 1100 [0, 100, 200]).2.1 (by decide)).trans (by decide)

/-- C8: when the rate-limit transaction itself fails, `checkRateLimit`
fails open: `allowed = true`, `remaining` is the full 60,000 ceiling,
`resetTime = now + window`, and the ledger is untouched. -/
theorem checkRateLimit_failOpen :
    ∀ (now : Int) (calls : List Int),
      checkRateLimit false now calls =
        (⟨true, 60000, now + 60 * 60 * 1000⟩, calls) :=
  fun _ _ => rfl

/-- C2: after any sequence of `storeGlucoseReadings` calls against an
initially empty store, there is at most one stored record per
`(userId, systemTime)` pair (two stored documents agreeing on both
fields are the same document), and re-ingesting the same
`(userId, systemTime)` with a different value and trend leaves exactly
one record, the one from the latest write. -/
theorem storeGlucoseReadings_atMostOne :
    (∀ (callsList : List (String × List DexcomGlucoseReading))
        (k₁ k₂ : String) (r₁ r₂ : StoredGlucoseReading),
        (k₁, r₁) ∈ runStoreCalls callsList [] →
        (k₂, r₂) ∈ runStoreCalls callsList [] →
        r₁.userId = r₂.userId → r₁.systemTime = r₂.systemTime →
        k₁ = k₂ ∧ r₁ = r₂) ∧
    runStoreCalls
        [("u", [⟨50, 60, 100, "up", none⟩]),
         ("u", [⟨50, 60, 120, "flat", none⟩])] [] =
      [("u_50", ⟨"u", 50, 60, 120, "mg/dL", "flat", none⟩)] := by
  refine ⟨?_, by decide⟩
  intro callsList k₁ k₂ r₁ r₂ h₁ h₂ hu ht
  exact storeInv_atMostOne (storeInv_runStoreCalls callsList storeInv_nil)
    h₁ h₂ hu ht

/-- C2 witness: the double-ingestion store instantiates the general
at-most-one statement. -/
theorem storeGlucoseReadings_atMostOne_witness :
    "u_50" = "u_50" ∧
      (⟨"u", 50, 60, 120, "mg/dL", "flat", none⟩ : StoredGlucoseReading) =
        ⟨"u", 50, 60, 120, "mg/dL", "flat", none⟩ :=
  storeGlucoseReadings_atMostOne.1
    [("u", [⟨50, 60, 100, "up", none⟩]), ("u", [⟨50, 60, 120, "flat", none⟩])]
    "u_50" "u_50" ⟨"u", 50, 60, 120, "mg/dL", "flat", none⟩
    ⟨"u", 50, 60, 120, "mg/dL", "flat", none⟩
    (by decide) (by decide) rfl rfl

/-- C3: in sandbox mode with available EGV range `[D1, D2]`, a requested
window entirely outside the range is remapped to
`[D2 − min(12h, D2 − D1), D2]` with `adjusted = true`; a partially
overlapping window is clamped to the intersection with
`adjusted = true`; a window fully inside is returned unchanged with
`adjusted = false`. -/
theorem adjustDatesForSandbox_correct :
    ∀ (s e D1 D2 : Int), s ≤ e → D1 ≤ D2 →
      ((e < D1 ∨ D2 < s) →
        adjustDatesForSandbox s e (some ⟨some ⟨D1⟩, some ⟨D2⟩⟩) true =
          ⟨D2 - min TWELVE_HOURS_MS (D2 - D1), D2, true⟩) ∧
      (¬ (e < D1 ∨ D2 < s) → ¬ (D1 ≤ s ∧ e ≤ D2) →
        adjustDatesForSandbox s e (some ⟨some ⟨D1⟩, some ⟨D2⟩⟩) true =
          ⟨max s D1, min e D2, true⟩) ∧
      (D1 ≤ s → e ≤ D2 →
        adjustDatesForSandbox s e (some ⟨some ⟨D1⟩, some ⟨D2⟩⟩) true =
          ⟨s, e, false⟩) := by
  intro s e D1 D2 hse hD
  refine ⟨?_, ?_, ?_⟩
  · intro hout
    simp only [adjustDatesForSandbox]
    rw [if_pos (hout.elim Or.inr Or.inl)]
  · intro hmeet hnotin
    simp only [adjustDatesForSandbox]
    rw [if_neg (fun hc => hmeet (hc.elim Or.inr Or.inl))]
    simp only [AdjustResult.mk.injEq]
    refine ⟨trivial, trivial, ?_⟩
    rw [decide_eq_true_eq]
    push_neg at hnotin
    rcases lt_or_le s D1 with hlt | hge
    · exact Or.inl (by omega)
    · exact Or.inr (by have := hnotin hge; omega)
  · intro h1 h2
    simp only [adjustDatesForSandbox]
    rw [if_neg (by push_neg; exact ⟨by omega, by omega⟩)]
    simp only [AdjustResult.mk.injEq]
    refine ⟨max_eq_left h1, min_eq_left h2, ?_⟩
    rw [decide_eq_false_iff_not]
    push_neg
    exact ⟨max_eq_left h1, min_eq_left h2⟩

/-- C3 witness: the three spec instances on the available range
`[0, 86400000]` (one day). -/
theorem adjustDatesForSandbox_correct_witness :
    adjustDatesForSandbox (-5000) (-1000) (some ⟨some ⟨0⟩, some ⟨86400000⟩⟩)
        true = ⟨86400000 - min TWELVE_HOURS_MS (86400000 - 0), 86400000, true⟩ ∧
    adjustDatesForSandbox (-3600000) 3600000 (some ⟨some ⟨0⟩, some ⟨86400000⟩⟩)
        true = ⟨max (-3600000) 0, min 3600000 86400000, true⟩ ∧
    adjustDatesForSandbox 1000 2000 (some ⟨some ⟨0⟩, some ⟨86400000⟩⟩)
        true = ⟨1000, 2000, false⟩ :=
  ⟨(adjustDatesForSandbox_correct (-5000) (-1000) 0 86400000
      (by decide) (by decide)).1 (by decide),
   (adjustDatesForSandbox_correct (-3600000) 3600000 0 86400000
      (by decide) (by decide)).2.1 (by decide) (by decide),
   (adjustDatesForSandbox_correct 1000 2000 0 86400000
      (by decide) (by decide)).2.2 (by decide) (by decide)⟩

/-- C4: a just-issued state token validates against its own user
(within one hour of issuance), validates as "User ID mismatch" against
any other user (whatever the clock says, so mismatch outranks expiry),
expires strictly after one hour (invalid at 61 minutes, valid at 59),
and the failure reasons are checked in the fixed order malformed
encoding → missing fields → user mismatch → expired (a malformed token
reports "Invalid state format" regardless of anything else, and a token
with any missing/falsy field reports "Missing required state fields"
regardless of user or clock).  The hypotheses `u ≠ ""`, `t ≠ 0`,
`n ≠ ""` say that the user identity, the issuance clock reading and the
hex nonce are non-degenerate, as they are at the real call sites
(a Firebase uid is nonempty, `Date.now()` is positive, and the nonce is
32 hex characters); the code tests these fields with JavaScript
truthiness, which the model keeps. -/
theorem stateToken_validation_correct :
    (∀ (u : String) (t : Int) (n : String) (now : Int),
        u ≠ "" → t ≠ 0 → n ≠ "" → now - t ≤ 60 * 60 * 1000 →
        validateState (generateSecureState u t n) u now = ⟨true, none⟩) ∧
    (∀ (u v : String) (t : Int) (n : String) (now : Int),
        u ≠ "" → t ≠ 0 → n ≠ "" → v ≠ u →
        validateState (generateSecureState u t n) v now =
          ⟨false, some "User ID mismatch"⟩) ∧
    (∀ (u : String) (t : Int) (n : String),
        u ≠ "" → t ≠ 0 → n ≠ "" →
        validateState (generateSecureState u t n) u (t + 61 * 60 * 1000) =
            ⟨false, some "State parameter expired"⟩ ∧
          validateState (generateSecureState u t n) u (t + 59 * 60 * 1000) =
            ⟨true, none⟩) ∧
    (∀ (expected : String) (now : Int),
        validateState .malformed expected now =
          ⟨false, some "Invalid state format"⟩) ∧
    (∀ (d : StateData) (expected : String) (now : Int),
        (jsFalsyStr d.userId ∨ jsFalsyInt d.timestamp ∨ jsFalsyStr d.nonce) →
        validateState (.parsed d) expected now =
          ⟨false, some "Missing required state fields"⟩) := by
  refine ⟨?_, ?_, ?_, ?_, ?_⟩
  · exact fun u t n now hu ht hn hage =>
      validateState_generate_valid u t n now hu ht hn hage
  · intro u v t n now hu ht hn hv
    rw [validateState_generate u v t n now hu ht hn, if_neg (fun h => hv h.symm)]
  · intro u t n hu ht hn
    constructor
    · rw [validateState_generate u u t n _ hu ht hn, if_pos rfl,
        if_pos (by omega)]
    · rw [validateState_generate u u t n _ hu ht hn, if_pos rfl,
        if_neg (by omega)]
  · exact fun expected now => rfl
  · intro d expected now h
    have hcond : (jsFalsyStr d.userId || jsFalsyInt d.timestamp ||
        jsFalsyStr d.nonce) = true := by
      rcases h with h | h | h <;> simp [h]
    simp only [validateState]
    rw [if_pos hcond]

/-- C4 witness: concrete instantiations of every part. -/
theorem stateToken_validation_correct_witness :
    validateState (generateSecureState "alice" 1700000000000 "3f2a")
        "alice" 1700000000000 = ⟨true, none⟩ ∧
    validateState (generateSecureState "alice" 1700000000000 "3f2a")
        "bob" 1700000000000 = ⟨false, some "User ID mismatch"⟩ ∧
    validateState (generateSecureState "alice" 1700000000000 "3f2a")
        "alice" (1700000000000 + 61 * 60 * 1000) =
      ⟨false, some "State parameter expired"⟩ ∧
    validateState (.parsed ⟨some "alice", some 0, some "3f2a"⟩) "alice" 0 =
      ⟨false, some "Missing required state fields"⟩ :=
  ⟨stateToken_validation_correct.1 "alice" 1700000000000 "3f2a" 1700000000000
      (by decide) (by decide) (by decide) (by decide),
   stateToken_validation_correct.2.1 "alice" "bob" 1700000000000 "3f2a"
      1700000000000 (by decide) (by decide) (by decide) (by decide),
   (stateToken_validation_correct.2.2.1 "alice" 1700000000000 "3f2a"
      (by decide) (by decide) (by decide)).1,
   stateToken_validation_correct.2.2.2.2 ⟨some "alice", some 0, some "3f2a"⟩
      "alice" 0 (Or.inr (Or.inl (by decide)))⟩

/-- C5: the fetch path refreshes iff `now ≥ expiresAt` or
`now + 30min ≥ expiresAt`; at `expiresAt = now + 29min` and at exactly
`now + 30min` a refresh happens (the comparison is `≥`), at
`now + 31min` the stored record is used unchanged. -/
theorem ensureFreshTokens_boundary :
    (∀ (now : Int) (tokens : DexcomTokens)
        (refreshResult : Except Unit DexcomTokens),
      (shouldRefreshToken now tokens.expiresAt = true ↔
        (tokens.expiresAt ≤ now ∨
          tokens.expiresAt ≤ now + 30 * 60 * 1000)) ∧
      (shouldRefreshToken now tokens.expiresAt = true →
        ensureFreshTokens now tokens refreshResult = refreshResult) ∧
      (shouldRefreshToken now tokens.expiresAt = false →
        ensureFreshTokens now tokens refreshResult = .ok tokens)) ∧
    (∀ (now : Int) (tokens : DexcomTokens)
        (refreshResult : Except Unit DexcomTokens),
      (tokens.expiresAt = now + 29 * 60 * 1000 →
        ensureFreshTokens now tokens refreshResult = refreshResult) ∧
      (tokens.expiresAt = now + 30 * 60 * 1000 →
        ensureFreshTokens now tokens refreshResult = refreshResult) ∧
      (tokens.expiresAt = now + 31 * 60 * 1000 →
        ensureFreshTokens now tokens refreshResult = .ok tokens)) := by
  have hiff : ∀ (now e : Int), shouldRefreshToken now e = true ↔
      (e ≤ now ∨ e ≤ now + 30 * 60 * 1000) := by
    intro now e
    simp [shouldRefreshToken, TOKEN_EXPIRY_BUFFER_MS]
  have hpos : ∀ (now : Int) (tokens : DexcomTokens)
      (r : Except Unit DexcomTokens), shouldRefreshToken now tokens.expiresAt = true →
      ensureFreshTokens now tokens r = r := by
    intro now tokens r h
    unfold ensureFreshTokens
    rw [if_pos h]
  have hneg : ∀ (now : Int) (tokens : DexcomTokens)
      (r : Except Unit DexcomTokens), shouldRefreshToken now tokens.expiresAt = false →
      ensureFreshTokens now tokens r = .ok tokens := by
    intro now tokens r h
    unfold ensureFreshTokens
    rw [if_neg (by simp [h])]
  refine ⟨fun now tokens r => ⟨hiff now tokens.expiresAt, hpos now tokens r,
    hneg now tokens r⟩, fun now tokens r => ⟨?_, ?_, ?_⟩⟩
  · intro he
    exact hpos now tokens r ((hiff now tokens.expiresAt).mpr (by omega))
  · intro he
    exact hpos now tokens r ((hiff now tokens.expiresAt).mpr (by omega))
  · intro he
    refine hneg now tokens r ?_
    rw [← Bool.not_eq_true, hiff now tokens.expiresAt]
    push_neg
    omega

/-- C5 witness: the three boundaries at `now = 0`. -/
theorem ensureFreshTokens_boundary_witness :
    ensureFreshTokens 0 ⟨"u", "a", "r", 29 * 60 * 1000, 0, none⟩ (.error ()) =
        .error () ∧
    ensureFreshTokens 0 ⟨"u", "a", "r", 30 * 60 * 1000, 0, none⟩ (.error ()) =
        .error () ∧
    ensureFreshTokens 0 ⟨"u", "a", "r", 31 * 60 * 1000, 0, none⟩ (.error ()) =
        .ok ⟨"u", "a", "r", 31 * 60 * 1000, 0, none⟩ :=
  ⟨(ensureFreshTokens_boundary.2 0 ⟨"u", "a", "r", 29 * 60 * 1000, 0, none⟩
      (.error ())).1 rfl,
   (ensureFreshTokens_boundary.2 0 ⟨"u", "a", "r", 30 * 60 * 1000, 0, none⟩
      (.error ())).2.1 rfl,
   (ensureFreshTokens_boundary.2 0 ⟨"u", "a", "r", 31 * 60 * 1000, 0, none⟩
      (.error ())).2.2 rfl⟩

/-- C6: the OAuth callback's redirect never depends on whether
persisting the exchanged tokens succeeded (`saveUserTokens` runs in a
try/catch whose catch only logs), and in particular when the
code-for-tokens exchange succeeds but persistence fails the user is
still redirected with `success=true`. -/
theorem oauthCallback_persistFailure_stillSuccess :
    (∀ (configOk : Bool) (error code : Option String)
        (state : Option StateToken) (now : Int) (exchangeOk : Bool),
      dexcomOAuthCallback configOk error code state now exchangeOk true =
        dexcomOAuthCallback configOk error code state now exchangeOk false) ∧
    (∀ (u : String) (t : Int) (n c : String) (now : Int),
      u ≠ "" → t ≠ 0 → n ≠ "" → c ≠ "" → now - t ≤ 60 * 60 * 1000 →
      dexcomOAuthCallback true none (some c)
          (some (generateSecureState u t n)) now true false =
        .successRedirect) := by
  refine ⟨fun _ _ _ _ _ _ => rfl, ?_⟩
  intro u t n c now hu ht hn hc hage
  simp only [dexcomOAuthCallback, generateSecureState]
  rw [if_neg (by simp), if_neg (by simp [jsFalsyStr]),
    if_neg (by simp [jsFalsyStr, hc])]
  simp only [Option.getD_some]
  rw [if_neg (by simp [jsFalsyStr, hu]),
    if_neg (by
      have hv := validateState_generate_valid u t n now hu ht hn hage
      simp only [generateSecureState] at hv
      rw [hv]
      simp),
    if_neg (by simp)]

/-- C6 witness: concrete happy-path exchange with failed persistence. -/
theorem oauthCallback_persistFailure_stillSuccess_witness :
    dexcomOAuthCallback true none (some "authcode")
        (some (generateSecureState "alice" 1700000000000 "3f2a"))
        1700000000000 true false = .successRedirect :=
  oauthCallback_persistFailure_stillSuccess.2 "alice" 1700000000000 "3f2a"
    "authcode" 1700000000000 (by decide) (by decide) (by decide) (by decide)
    (by decide)

/-- C7: `dexcomFetchGlucoseData` validates in a fixed fail-fast order —
missing credentials → rate-limit denial → token refresh → unparsable
dates → 2020-01-01 floor → start-before-end ordering → 365-day span.
The floor check on the start bound fires without looking at the end
bound, so an input violating both the floor and the ordering fails with
the floor error. -/
theorem dexcomFetch_validationOrder :
    (∀ (rateAllowed : Bool) (now : Int)
        (refreshResult : Except Unit DexcomTokens)
        (startDate endDate : Option (Option Int)),
      dexcomFetchGlucoseDataValidate none rateAllowed now refreshResult
        startDate endDate = .notConnected) ∧
    (∀ (tks : DexcomTokens) (now : Int)
        (refreshResult : Except Unit DexcomTokens)
        (startDate endDate : Option (Option Int)),
      dexcomFetchGlucoseDataValidate (some tks) false now refreshResult
        startDate endDate = .rateLimited) ∧
    (∀ (tks : DexcomTokens) (now : Int)
        (startDate endDate : Option (Option Int)),
      shouldRefreshToken now tks.expiresAt = true →
      dexcomFetchGlucoseDataValidate (some tks) true now (.error ())
        startDate endDate = .refreshFailed) ∧
    (∀ (tks tks' : DexcomTokens) (now : Int)
        (refreshResult : Except Unit DexcomTokens) (e : Option Int),
      ensureFreshTokens now tks refreshResult = .ok tks' →
      dexcomFetchGlucoseDataValidate (some tks) true now refreshResult
        (some none) (some e) = .invalidDateFormat) ∧
    (∀ (tks tks' : DexcomTokens) (now : Int)
        (refreshResult : Except Unit DexcomTokens) (s e : Int),
      ensureFreshTokens now tks refreshResult = .ok tks' →
      s < MIN_ALLOWED_DATE_MS →
      dexcomFetchGlucoseDataValidate (some tks) true now refreshResult
        (some (some s)) (some (some e)) = .startBefore2020) ∧
    (∀ (tks tks' : DexcomTokens) (now : Int)
        (refreshResult : Except Unit DexcomTokens) (s e : Int),
      ensureFreshTokens now tks refreshResult = .ok tks' →
      MIN_ALLOWED_DATE_MS ≤ s → MIN_ALLOWED_DATE_MS ≤ e → e ≤ s →
      dexcomFetchGlucoseDataValidate (some tks) true now refreshResult
        (some (some s)) (some (some e)) = .startNotBeforeEnd) ∧
    (∀ (tks tks' : DexcomTokens) (now : Int)
        (refreshResult : Except Unit DexcomTokens) (s e : Int),
      ensureFreshTokens now tks refreshResult = .ok tks' →
      MIN_ALLOWED_DATE_MS ≤ s → MIN_ALLOWED_DATE_MS ≤ e → s < e →
      MAX_RANGE_MS < e - s →
      dexcomFetchGlucoseDataValidate (some tks) true now refreshResult
        (some (some s)) (some (some e)) = .rangeTooLarge) := by
  refine ⟨?_, ?_, ?_, ?_, ?_, ?_, ?_⟩
  · intro rateAllowed now refreshResult startDate endDate
    rfl
  · intro tks now refreshResult startDate endDate
    simp [dexcomFetchGlucoseDataValidate]
  · intro tks now startDate endDate h
    have he : ensureFreshTokens now tks (.error ()) = .error () := by
      unfold ensureFreshTokens
      rw [if_pos h]
    simp only [dexcomFetchGlucoseDataValidate]
    rw [if_neg (by simp), he]
  · intro tks tks' now refreshResult e h
    simp only [dexcomFetchGlucoseDataValidate]
    rw [if_neg (by simp), h]
    cases e <;> rfl
  · intro tks tks' now refreshResult s e h hs
    rw [fetchValidate_eval tks tks' now refreshResult (some (some s))
        (some (some e)) s e h rfl,
      if_pos hs]
  · intro tks tks' now refreshResult s e h hs he hord
    rw [fetchValidate_eval tks tks' now refreshResult (some (some s))
        (some (some e)) s e h rfl,
      if_neg (not_lt.mpr hs), if_neg (not_lt.mpr he), if_pos hord]
  · intro tks tks' now refreshResult s e h hs he hord hrange
    rw [fetchValidate_eval tks tks' now refreshResult (some (some s))
        (some (some e)) s e h rfl,
      if_neg (not_lt.mpr hs), if_neg (not_lt.mpr he),
      if_neg (not_le.mpr hord), if_pos hrange]

/-- C7 witness: a request whose start bound is before the 2020 floor
and also not before its end bound fails with the floor error. -/
theorem dexcomFetch_validationOrder_witness :
    dexcomFetchGlucoseDataValidate (some (exampleTokens "u1")) true 0
        (.ok (exampleTokens "u1")) (some (some 1000)) (some (some 500)) =
      .startBefore2020 :=
  dexcomFetch_validationOrder.2.2.2.2.1 (exampleTokens "u1")
    (exampleTokens "u1") 0 (.ok (exampleTokens "u1")) 1000 500
    rfl (by decide)

/-- C9: one user's failure never aborts the scheduled sweep — a user
whose vendor fetch throws contributes nothing and the rest of the sweep
produces exactly the state it would have produced without that user;
the sweep returns nothing (`Unit`).  In the spec's 3-user scenario where
the 2nd user's fetch throws, the 1st and 3rd users' readings are both
persisted. -/
theorem scheduledPull_isolation :
    (∀ (now : Int) (l₁ l₂ : List SweepUserInput) (u : SweepUserInput)
        (store : GlucoseStore),
      u.fetchResult = .error () →
      scheduledGlucoseDataPull now (l₁ ++ u :: l₂) store =
        scheduledGlucoseDataPull now (l₁ ++ l₂) store) ∧
    (scheduledGlucoseDataPull 0 exampleSweepUsers []).1 =
      [("u1_50", ⟨"u1", 50, 60, 100, "mg/dL", "up", none⟩),
       ("u3_80", ⟨"u3", 80, 90, 110, "mg/dL", "down", none⟩)] := by
  refine ⟨?_, by decide⟩
  intro now l₁ l₂ u store h
  unfold scheduledGlucoseDataPull
  rw [List.foldl_append, List.foldl_cons, sweepUser_fetchThrow now u _ h,
    ← List.foldl_append]

/-- C9 witness: dropping the throwing user from the concrete sweep
changes nothing. -/
theorem scheduledPull_isolation_witness :
    scheduledGlucoseDataPull 0 ([exUser1] ++ exUser2 :: [exUser3]) [] =
      scheduledGlucoseDataPull 0 ([exUser1] ++ [exUser3]) [] :=
  scheduledPull_isolation.1 0 [exUser1] [exUser3] exUser2 [] rfl

/-- C10: when either (or both) of `startDate`/`endDate` is missing, the
window defaults to the 12 hours ending at `now` — a single supplied
bound is ignored — and the defaulted window flows through validation to
the vendor fetch whenever `now` is at least 12 hours past the 2020
floor. -/
theorem dexcomFetch_defaultWindow :
    (∀ (now : Int) (startDate endDate : Option (Option Int)),
      startDate = none ∨ endDate = none →
      resolveFetchDates now startDate endDate =
        (some (now - TWELVE_HOURS_MS), some now)) ∧
    (∀ (tks tks' : DexcomTokens) (now : Int)
        (refreshResult : Except Unit DexcomTokens)
        (startDate endDate : Option (Option Int)),
      ensureFreshTokens now tks refreshResult = .ok tks' →
      startDate = none ∨ endDate = none →
      MIN_ALLOWED_DATE_MS + TWELVE_HOURS_MS ≤ now →
      dexcomFetchGlucoseDataValidate (some tks) true now refreshResult
        startDate endDate = .proceed (now - TWELVE_HOURS_MS) now tks') := by
  have hres : ∀ (now : Int) (startDate endDate : Option (Option Int)),
      startDate = none ∨ endDate = none →
      resolveFetchDates now startDate endDate =
        (some (now - TWELVE_HOURS_MS), some now) := by
    intro now startDate endDate h
    rcases h with h | h
    · subst h
      cases endDate <;> rfl
    · subst h
      cases startDate <;> rfl
  refine ⟨hres, ?_⟩
  intro tks tks' now refreshResult startDate endDate h hdef hnow
  have h12 : TWELVE_HOURS_MS = 43200000 := rfl
  have hmin : MIN_ALLOWED_DATE_MS = 1577836800000 := rfl
  have hmax : MAX_RANGE_MS = 31536000000 := rfl
  rw [fetchValidate_eval tks tks' now refreshResult startDate endDate _ _ h
      (hres now startDate endDate hdef),
    if_neg (by omega), if_neg (by omega), if_neg (by omega),
    if_neg (by omega)]

/-- C10 witness: only an end bound supplied — it is ignored and the
default window is used. -/
theorem dexcomFetch_defaultWindow_witness :
    dexcomFetchGlucoseDataValidate (some (exampleTokens "u1")) true
        1700000000000 (.ok (exampleTokens "u1")) none (some (some 500)) =
      .proceed (1700000000000 - TWELVE_HOURS_MS) 1700000000000
        (exampleTokens "u1") :=
  dexcomFetch_defaultWindow.2 (exampleTokens "u1") (exampleTokens "u1")
    1700000000000 (.ok (exampleTokens "u1")) none (some (some 500))
    rfl (Or.inl rfl) (by decide)

end GlucoseDashboard
